import Mathlib

/-!
Verification of the user-model layer (`discord/user.py`) of a chat-client
library.  The Python classes `BaseUser`, `ClientUser` and `User` are shallowly
embedded as Lean structures; the mutating methods become pure functions from
state to state, and the remote (HTTP) and session-cache interactions become
explicit call traces.  Machine integers are modelled as `Nat` (the Python
values involved are arbitrary-precision non-negative ints); fallible code
returns `Except`.
-/

set_option linter.unusedVariables false

/-- Python errors this layer can raise.  `clientException` models
`discord.errors.ClientException`; `unboundLocalError` models the interpreter's
error on reading a local variable that was never assigned; `valueError` models
`int()` failing to parse a string. -/
inductive PyErr where
  | clientException (msg : String)
  | unboundLocalError (name : String)
  | valueError
deriving DecidableEq, Repr

/-- Accumulating decimal parse of a character list; any non-digit yields
`none`. -/
def pyIntAux : List Char → Nat → Option Nat
  | [], acc => some acc
  | c :: cs, acc =>
      if c.isDigit then pyIntAux cs (10 * acc + (c.toNat - 48)) else none

/-- Python `int(s)` restricted to the plain non-negative decimal numerals this
module feeds it (discriminators); any other string yields `none`, modelling
the `ValueError` raised by Python. -/
def pyInt (s : String) : Option Nat :=
  match s.data with
  | [] => none
  | _ :: _ => pyIntAux s.data 0

/-- Modelled from the spec: `len(DefaultAvatar)` — `enums.py` is not in src/;
the spec states there are 5 default-avatar variants. -/
def lenDefaultAvatar : Nat := 5

/-- Modelled from the spec: the closed `HypeSquadHouse` enumeration
(`enums.py` is not in src/).  The spec only requires a closed enumeration
whose members carry a wire value, sent by `change_hypesquad_house`. -/
inductive HypeSquadHouse where
  | bravery
  | brilliance
  | balance
deriving DecidableEq, Repr

/-- The wire value of a `HypeSquadHouse` member (`house.value`). -/
def HypeSquadHouse.value : HypeSquadHouse → Nat
  | .bravery => 1
  | .brilliance => 2
  | .balance => 3

/-- Modelled from the spec: `Asset` (`asset.py` is not in src/).  The spec says
the avatar accessor returns either a deterministic default-avatar asset
selected by an index, or an asset keyed by `(id, hash)`; banners are keyed by
`(id, banner_hash)`.  The first argument of each constructor is the session
reference (`self._state`) that `user.py` passes through. -/
inductive Asset where
  | _from_default_avatar (state : Nat) (index : Nat)
  | _from_avatar (state : Nat) (userId : Nat) (hash : String)
  | _from_user_banner (state : Nat) (userId : Nat) (hash : String)
deriving DecidableEq, Repr

/-- Inbound wire payload for a user object, as consumed by
`BaseUser._update`.  `id` arrives as a decimal string on the wire and is
converted by `int(data['id'])`; it is modelled directly as `Nat`.  Fields read
with `.get(..., default)` are `Option`-typed (`none` = key absent). -/
structure UserPayload where
  id : Nat
  username : String
  discriminator : String
  avatar : Option String
  banner : Option String := none
  accent_color : Option Int := none
  public_flags : Option Nat := none
  bot : Option Bool := none
  system : Option Bool := none
deriving DecidableEq, Repr

/-- The tracked fields of a fully-initialised `BaseUser` (its `__slots__`,
after `__init__` has run).  `_state` is the opaque session reference. -/
structure BaseUser where
  name : String
  id : Nat
  discriminator : String
  _avatar : Option String
  _banner : Option String
  _accent_colour : Option Int
  bot : Bool
  system : Bool
  _public_flags : Nat
  _state : Nat
deriving DecidableEq, Repr

/-- The method `BaseUser._update(data)`: full overwrite of every tracked field from the
payload; only the session reference `_state` is untouched. -/
def BaseUser._update (self : BaseUser) (data : UserPayload) : BaseUser :=
  { self with
    name := data.username
    id := data.id
    discriminator := data.discriminator
    _avatar := data.avatar
    _banner := data.banner
    _accent_colour := data.accent_color
    _public_flags := data.public_flags.getD 0
    bot := data.bot.getD false
    system := data.system.getD false }

/-- The constructor `BaseUser.__init__(state=state, data=data)`: stores the session reference
and populates every other field via `_update`. -/
def BaseUser.ofPayload (state : Nat) (data : UserPayload) : BaseUser :=
  { name := data.username
    id := data.id
    discriminator := data.discriminator
    _avatar := data.avatar
    _banner := data.banner
    _accent_colour := data.accent_color
    _public_flags := data.public_flags.getD 0
    bot := data.bot.getD false
    system := data.system.getD false
    _state := state }

/-- The method `BaseUser.__eq__`: `isinstance(other, _UserTag) and other.id == self.id`.
Both operands here are user models, hence instances of `_UserTag`. -/
def BaseUser.beq (self other : BaseUser) : Bool :=
  other.id == self.id

/-- The method `BaseUser.__ne__`: `not self.__eq__(other)`. -/
def BaseUser.bne (self other : BaseUser) : Bool :=
  !(BaseUser.beq self other)

/-- The method `BaseUser.__hash__`: `self.id >> 22`. -/
def BaseUser.hash (self : BaseUser) : Nat :=
  self.id >>> 22

/-- The `avatar` property: if no avatar hash is stored, a default-avatar asset
indexed by `int(self.discriminator) % len(DefaultAvatar)`; otherwise an asset
keyed by `(id, hash)`.  `none` models the `ValueError` of `int()` on a
non-numeric discriminator. -/
def BaseUser.avatar (self : BaseUser) : Option Asset :=
  match self._avatar with
  | none =>
      (pyInt self.discriminator).map fun d =>
        Asset._from_default_avatar self._state (d % lenDefaultAvatar)
  | some hash => some (Asset._from_avatar self._state self.id hash)

/-- The `banner` property: `None` if no hash, else an asset keyed by
`(id, banner_hash)`. -/
def BaseUser.banner (self : BaseUser) : Option Asset :=
  match self._banner with
  | none => none
  | some hash => some (Asset._from_user_banner self._state self.id hash)

/-- The slot table of a `BaseUser` object as `cls.__new__(cls)` creates it:
every slot starts unset (`none`).  `BaseUser._copy` assigns into this. -/
structure BaseUserSlots where
  name : Option String := none
  id : Option Nat := none
  discriminator : Option String := none
  _avatar : Option (Option String) := none
  _banner : Option (Option String) := none
  _accent_colour : Option (Option Int) := none
  bot : Option Bool := none
  system : Option Bool := none
  _public_flags : Option Nat := none
  _state : Option Nat := none
deriving DecidableEq, Repr

/-- The classmethod `BaseUser._copy(user)`: `cls.__new__(cls)` followed by exactly the nine
slot assignments the source lists (in source order).  The `system` slot is
never assigned and stays unset. -/
def BaseUser._copy (user : BaseUser) : BaseUserSlots :=
  { name := some user.name
    id := some user.id
    discriminator := some user.discriminator
    _avatar := some user._avatar
    _banner := some user._banner
    _accent_colour := some user._accent_colour
    bot := some user.bot
    _state := some user._state
    _public_flags := some user._public_flags }

/-- What the spec's words say `_copy` produces: every tracked field of the
original replicated exactly (used as the comparison point for the copy
claim). -/
def BaseUserSlots.ofUser (user : BaseUser) : BaseUserSlots :=
  { name := some user.name
    id := some user.id
    discriminator := some user.discriminator
    _avatar := some user._avatar
    _banner := some user._banner
    _accent_colour := some user._accent_colour
    bot := some user.bot
    system := some user.system
    _state := some user._state
    _public_flags := some user._public_flags }

/-- Inbound wire payload for the client's own account: the base user payload
plus the account-private fields read by `ClientUser._update`. -/
structure ClientUserPayload extends UserPayload where
  verified : Option Bool := none
  email : Option String := none
  locale : Option String := none
  flags : Option Nat := none
  mfa_enabled : Option Bool := none
  premium : Option Bool := none
  premium_type : Option Nat := none
deriving DecidableEq, Repr

/-- The tracked fields of a fully-initialised `ClientUser`.  `premium_type`
holds the raw wire value (`try_enum(PremiumType, ...)` from the absent
`enums.py` is modelled as value-preserving).  `_relationships` maps a peer
user id to an opaque relationship token; `__init__` starts it empty. -/
structure ClientUser extends BaseUser where
  verified : Bool
  email : Option String
  locale : Option String
  _flags : Nat
  mfa_enabled : Bool
  premium : Bool
  premium_type : Option Nat
  _relationships : List (Nat × Nat) := []
deriving DecidableEq, Repr

/-- The method `ClientUser._update(data)`: the base update followed by a full overwrite
of the account-private fields, absent booleans defaulting to `False`, absent
optionals to `None`, `flags` to `0`.  `_relationships` is untouched. -/
def ClientUser._update (self : ClientUser) (data : ClientUserPayload) : ClientUser :=
  { self with
    toBaseUser := BaseUser._update self.toBaseUser data.toUserPayload
    verified := data.verified.getD false
    email := data.email
    locale := data.locale
    _flags := data.flags.getD 0
    mfa_enabled := data.mfa_enabled.getD false
    premium := data.premium.getD false
    premium_type := data.premium_type }

/-- The tracked fields of a fully-initialised `User`; `__init__` sets
`_stored` to `False`. -/
structure User extends BaseUser where
  _stored : Bool
deriving DecidableEq, Repr

/-- The slot table of a `User` object created by `cls.__new__(cls)`:
the base slots plus the `_stored` slot, all initially unset. -/
structure UserSlots extends BaseUserSlots where
  _stored : Option Bool := none
deriving DecidableEq, Repr

/-- The classmethod `User._copy(user)`: `super()._copy(user)` followed by
`self._stored = False`. -/
def User._copy (user : User) : UserSlots :=
  { toBaseUserSlots := BaseUser._copy user.toBaseUser
    _stored := some false }

/-- A call recorded against the session-state cache collaborator. -/
inductive StateCall where
  | deref_user (userId : Nat)
deriving DecidableEq, Repr

/-- The finaliser `User.__del__`: inside `try/except Exception: pass`, if `self._stored` is
truthy, call `self._state.deref_user(self.id)`.  The argument is the
`_stored` slot: an unset slot raises `AttributeError`, swallowed by the
`except` (hence no call). -/
def User.delCalls (storedSlot : Option Bool) (userId : Nat) : List StateCall :=
  match storedSlot with
  | some true => [StateCall.deref_user userId]
  | _ => []

/-- The raw bytes of an image file, as the `avatar` bytes argument. -/
abbrev ByteSeq := List Nat

/-- The value transmitted in the `avatar` field of the profile-edit request.
`b64Data bs` stands for `_bytes_to_base64_data(bs)`, the base64 data-URI
encoding of the bytes `bs` (`utils.py` is not in src/; the encoding is kept
abstract, carrying the input bytes).  `pyNone` is an explicit `None`.
`assetValue a` records that the Python value placed in the args dict is the
`Asset` object `a` itself. -/
inductive AvatarArg where
  | b64Data (bs : ByteSeq)
  | pyNone
  | assetValue (a : Asset)
deriving DecidableEq, Repr

/-- The `args` dict transmitted to `http.edit_profile(**args)`.  An outer
`none` on `email`/`new_password` means the key is absent from the dict; the
inner `Option` is the (possibly `None`) Python value. -/
structure EditArgs where
  password : Option String
  username : Option String
  avatar : AvatarArg
  email : Option (Option String) := none
  new_password : Option (Option String) := none
deriving DecidableEq, Repr

/-- A call recorded against the HTTP transport collaborator. -/
inductive HttpCall where
  | leave_hypesquad_house
  | change_hypesquad_house (value : Nat)
  | edit_profile (args : EditArgs)
  | start_group (selfId : Nat) (users : List String)
  | start_private_message (userId : Nat)
deriving DecidableEq, Repr

/-- The Python value bound to the `house` keyword argument when present:
`None`, a member of the `HypeSquadHouse` enumeration, or any other value
(which fails the `isinstance` check). -/
inductive HouseField where
  | pyNone
  | house (h : HypeSquadHouse)
  | notAHouse
deriving DecidableEq, Repr

/-- The keyword arguments of `ClientUser.edit(**fields)`.  An outer `none`
means the key is absent.  `avatar`: `some (some bs)` is a bytes object,
`some none` an explicit `None`.  `password` uses `fields.get('password')`,
which conflates an absent key with an explicit `None`, so a single `Option`
is faithful. -/
structure EditFields where
  avatar : Option (Option ByteSeq) := none
  password : Option String := none
  username : Option (Option String) := none
  email : Option (Option String) := none
  new_password : Option (Option String) := none
  house : Option HouseField := none
deriving DecidableEq, Repr

/-- Lines 503-512 of `user.py`: the `house` block of `ClientUser.edit`, run
when the `house` key is present.  The local `value` is assigned only in the
final `else` branch; the `await http.change_hypesquad_house(value)` call sits
after the whole `if/elif/else`, so it runs in the `None` branch too, where
reading the never-assigned `value` raises `UnboundLocalError`.  Returns the
HTTP calls issued and the error, if one is raised. -/
def houseBlock (hf : HouseField) : List HttpCall × Option PyErr :=
  let branch : Option Nat × List HttpCall × Option PyErr :=
    match hf with
    | .pyNone => (none, [HttpCall.leave_hypesquad_house], none)
    | .notAHouse =>
        (none, [], some (PyErr.clientException "`house` parameter was not a HypeSquadHouse"))
    | .house h => (some h.value, [], none)
  match branch with
  | (_, calls, some e) => (calls, some e)
  | (value, calls, none) =>
      match value with
      | none => (calls, some (PyErr.unboundLocalError "value"))
      | some v => (calls ++ [HttpCall.change_hypesquad_house v], none)

/-- Lines 474-482 of `user.py`: the avatar value for the `args` dict of
`ClientUser.edit`.  Note the read in the absent-key case is `self.avatar`,
the `Asset`-valued property, not the stored `_avatar` hash. -/
def editAvatarStep (self : ClientUser) (fields : EditFields) : Except PyErr AvatarArg :=
  match fields.avatar with
  | none =>
      match BaseUser.avatar self.toBaseUser with
      | some a => .ok (AvatarArg.assetValue a)
      | none => .error PyErr.valueError
  | some (some avatar_bytes) => .ok (AvatarArg.b64Data avatar_bytes)
  | some none => .ok AvatarArg.pyNone

/-- The coroutine `ClientUser.edit(**fields)`, modelled through the issuing of
the `edit_profile` request: the success value is the transmitted `args` dict.
The post-response steps (overwriting `self.email`, the optional token
rotation, the dead local re-encoding of `avatar`, `self._update(data)`, and
constructing the returned fresh `ClientUser`) depend only on the response
and are outside this model. -/
def ClientUser.edit (self : ClientUser) (fields : EditFields) :
    Except PyErr EditArgs × List HttpCall :=
  match editAvatarStep self fields with
  | .error e => (.error e, [])
  | .ok avatar =>
      let not_bot_account := !self.bot
      let password := fields.password
      if not_bot_account && password.isNone then
        (.error (PyErr.clientException "Password is required for non-bot accounts."), [])
      else
        let args : EditArgs :=
          { password := password
            username := fields.username.getD (some self.name)
            avatar := avatar
            email := if not_bot_account then some (fields.email.getD self.email) else none
            new_password := if not_bot_account then fields.new_password else none }
        match fields.house with
        | none => (.ok args, [HttpCall.edit_profile args])
        | some hf =>
            match houseBlock hf with
            | (calls, some e) => (.error e, calls)
            | (calls, none) => (.ok args, calls ++ [HttpCall.edit_profile args])

/-- The coroutine `ClientUser.create_group(*recipients)`: fewer than two recipients raise a
`ClientException` before any remote call; otherwise one `start_group` call is
issued with every recipient's id stringified, in order.  The success value is
that stringified list (constructing the `GroupChannel` from the response is
outside this model). -/
def ClientUser.create_group (self : ClientUser) (recipients : List User) :
    Except PyErr (List String) × List HttpCall :=
  if recipients.length < 2 then
    (.error (PyErr.clientException "You must have two or more recipients to create a group."),
     [])
  else
    let users := recipients.map fun u => toString u.id
    (.ok users, [HttpCall.start_group self.id users])

/-- Modelled from the spec: the session-state container's private-channel
cache (`state.py` is not in src/).  The spec says DM channels are looked up
and registered keyed by the peer user's id; a channel is modelled by its
numeric id. -/
structure ConnectionState where
  private_channels_by_user : List (Nat × Nat)
deriving DecidableEq, Repr

/-- Modelled from the spec: `_get_private_channel_by_user` — O(1) lookup of a
previously-established DM channel keyed by the user's id (`state.py` is not
in src/). -/
def ConnectionState._get_private_channel_by_user
    (st : ConnectionState) (user_id : Nat) : Option Nat :=
  (st.private_channels_by_user.find? fun p => p.1 == user_id).map fun p => p.2

/-- Modelled from the spec: `add_dm_channel(data)` — constructs the channel
from the response payload and registers it in the session cache under the
recipient's id (`state.py` is not in src/). -/
def ConnectionState.add_dm_channel
    (st : ConnectionState) (user_id channel_id : Nat) : Nat × ConnectionState :=
  (channel_id,
   { private_channels_by_user := (user_id, channel_id) :: st.private_channels_by_user })

/-- The `dm_channel` property: cache lookup by this user's id. -/
def User.dm_channel (self : User) (st : ConnectionState) : Option Nat :=
  ConnectionState._get_private_channel_by_user st self.id

/-- The coroutine `User.create_dm()`: return the cached channel if present; otherwise issue
`start_private_message(self.id)` and register the response
(`resp_channel_id`, the channel carried by the HTTP response) via
`add_dm_channel`.  Returns the channel, the resulting session state and the
HTTP calls issued. -/
def User.create_dm (self : User) (st : ConnectionState) (resp_channel_id : Nat) :
    Nat × ConnectionState × List HttpCall :=
  match User.dm_channel self st with
  | some found => (found, st, [])
  | none =>
      let r := ConnectionState.add_dm_channel st self.id resp_channel_id
      (r.1, r.2, [HttpCall.start_private_message self.id])

/-- The constructor `ClientUser.__init__`: the base constructor followed by
`self._relationships = {}`. -/
def ClientUser.ofPayload (state : Nat) (data : ClientUserPayload) : ClientUser :=
  { toBaseUser := BaseUser.ofPayload state data.toUserPayload
    verified := data.verified.getD false
    email := data.email
    locale := data.locale
    _flags := data.flags.getD 0
    mfa_enabled := data.mfa_enabled.getD false
    premium := data.premium.getD false
    premium_type := data.premium_type
    _relationships := [] }

/-- The constructor `User.__init__`: the base constructor followed by
`self._stored = False`. -/
def User.ofPayload (state : Nat) (data : UserPayload) : User :=
  { toBaseUser := BaseUser.ofPayload state data
    _stored := false }

/-- A hash-less user whose id and discriminator disagree modulo 5:
id 12 (12 mod 5 = 2) with discriminator 0003 (3 mod 5 = 3). -/
def c1User : BaseUser :=
  BaseUser.ofPayload 0
    { id := 12, username := "alice", discriminator := "0003", avatar := none }

/-- A user whose `system` flag is set, for exercising `_copy`. -/
def c2User : BaseUser :=
  BaseUser.ofPayload 0
    { id := 5, username := "sys", discriminator := "0001", avatar := some "aaa",
      system := some true }

/-- A payload with id 4194304; every other field differs from `c3qPayload`. -/
def c3pPayload : UserPayload :=
  { id := 4194304, username := "p", discriminator := "0001", avatar := some "hp",
    public_flags := some 1, bot := some true }

/-- A payload with the same id 4194304 as `c3pPayload` but every other field
different. -/
def c3qPayload : UserPayload :=
  { id := 4194304, username := "q", discriminator := "0002", avatar := none,
    banner := some "bq", system := some true }

/-- A bot client account (so `edit` needs no password) with a stored avatar
hash. -/
def botClient : ClientUser :=
  ClientUser.ofPayload 0
    { id := 3, username := "me", discriminator := "0001", avatar := some "aaa",
      bot := some true }

/-- The `args` dict `botClient.edit()` transmits when no keyword argument
carries an avatar, username or password. -/
def botClientArgs : EditArgs :=
  { password := none
    username := some "me"
    avatar := AvatarArg.assetValue (Asset._from_avatar 0 3 "aaa") }

/-- A non-bot client account. -/
def nonBotClient : ClientUser :=
  ClientUser.ofPayload 0
    { id := 9, username := "own", discriminator := "0007", avatar := none }

/-- A recipient with id 10. -/
def recipientA : User :=
  User.ofPayload 0 { id := 10, username := "a", discriminator := "0001", avatar := none }

/-- A recipient with id 11. -/
def recipientB : User :=
  User.ofPayload 0 { id := 11, username := "b", discriminator := "0002", avatar := none }

/-- Every well-formed `edit` invocation gets past the avatar step: when the
discriminator parses as an integer (it is a 4-digit string in practice), the
avatar computation of lines 474-482 cannot raise. -/
theorem editAvatarStep_isOk (self : ClientUser) (fields : EditFields)
    (hdisc : pyInt self.discriminator ≠ none) :
    ∃ a, editAvatarStep self fields = .ok a := by
  unfold editAvatarStep
  rcases hfa : fields.avatar with _ | ob
  · rcases hua : self.toBaseUser._avatar with _ | hsh
    · rcases hpi : pyInt self.toBaseUser.discriminator with _ | d
      · exact absurd hpi hdisc
      · exact ⟨AvatarArg.assetValue
            (Asset._from_default_avatar self._state (d % lenDefaultAvatar)),
          by simp [BaseUser.avatar, hua, hpi]⟩
    · exact ⟨AvatarArg.assetValue (Asset._from_avatar self._state self.id hsh),
        by simp [BaseUser.avatar, hua]⟩
  · rcases ob with _ | bs
    · exact ⟨AvatarArg.pyNone, rfl⟩
    · exact ⟨AvatarArg.b64Data bs, rfl⟩

/-- Constructing from a payload agrees with running `_update` on any object
holding the same session reference. -/
theorem BaseUser.update_eq_ofPayload (self : BaseUser) (data : UserPayload) :
    BaseUser._update self data = BaseUser.ofPayload self._state data := rfl

/-- C1 counterexample: the claim says the default-avatar variant is
`id mod 5`; on `c1User` (id 12, discriminator 0003, no avatar hash) the code
selects variant 3 = `int(discriminator) mod 5`, while `id mod 5 = 2`. -/
theorem c1_id_mod_counterexample :
    c1User._avatar = none ∧
    c1User.id % lenDefaultAvatar = 2 ∧
    BaseUser.avatar c1User = some (Asset._from_default_avatar 0 3) ∧
    BaseUser.avatar c1User
      ≠ some (Asset._from_default_avatar c1User._state (c1User.id % lenDefaultAvatar)) := by
  refine ⟨rfl, rfl, by decide, ?_⟩
  intro h
  rw [(by decide : BaseUser.avatar c1User = some (Asset._from_default_avatar 0 3))] at h
  exact absurd (Option.some.inj h) (by decide)

/-- C1 amended: for every user constructed from a payload with no avatar
hash, `avatar()` returns the default-avatar asset whose variant index is the
discriminator's integer value modulo the number of default avatar variants
(5) — the discriminator, not the id. -/
theorem c1_default_avatar_by_discriminator (st : Nat) (p : UserPayload) (d : Nat)
    (hav : p.avatar = none) (hd : pyInt p.discriminator = some d) :
    BaseUser.avatar (BaseUser.ofPayload st p)
      = some (Asset._from_default_avatar st (d % lenDefaultAvatar)) := by
  simp [BaseUser.avatar, BaseUser.ofPayload, hav, hd]

/-- C1 witness: the amended statement evaluated on a concrete hash-less
payload with discriminator 0003. -/
theorem c1_default_avatar_by_discriminator_witness :
    BaseUser.avatar (BaseUser.ofPayload 0
        { id := 12, username := "alice", discriminator := "0003", avatar := none })
      = some (Asset._from_default_avatar 0 (3 % lenDefaultAvatar)) :=
  c1_default_avatar_by_discriminator 0 _ 3 rfl (by decide)

/-- C2 counterexample: on a user whose `system` flag is `True`, the copy
produced by `_copy` does not replicate every tracked field — the `system`
slot of the copy is left unset, so the copy differs from the full
field-by-field replica the claim describes. -/
theorem c2_copy_counterexample :
    c2User.system = true ∧
    (BaseUser._copy c2User).system = none ∧
    BaseUser._copy c2User ≠ BaseUserSlots.ofUser c2User := by
  refine ⟨rfl, rfl, ?_⟩
  intro h
  have hs := congrArg BaseUserSlots.system h
  rw [(rfl : (BaseUser._copy c2User).system = none),
      (rfl : (BaseUserSlots.ofUser c2User).system = some c2User.system)] at hs
  exact Option.noConfusion hs

/-- C2 amended: `BaseUser._copy` replicates name, id, discriminator, avatar
hash, banner hash, accent colour, bot, public flags and session state
exactly, but does not assign the `system` slot of the copy (it stays unset);
`User._copy` behaves as the base copy on these fields. -/
theorem c2_copy_replicates_all_but_system (u : BaseUser) (v : User) :
    (BaseUser._copy u).name = some u.name ∧
    (BaseUser._copy u).id = some u.id ∧
    (BaseUser._copy u).discriminator = some u.discriminator ∧
    (BaseUser._copy u)._avatar = some u._avatar ∧
    (BaseUser._copy u)._banner = some u._banner ∧
    (BaseUser._copy u)._accent_colour = some u._accent_colour ∧
    (BaseUser._copy u).bot = some u.bot ∧
    (BaseUser._copy u)._public_flags = some u._public_flags ∧
    (BaseUser._copy u)._state = some u._state ∧
    (BaseUser._copy u).system = none ∧
    (User._copy v).toBaseUserSlots = BaseUser._copy v.toBaseUser :=
  ⟨rfl, rfl, rfl, rfl, rfl, rfl, rfl, rfl, rfl, rfl, rfl⟩

/-- C3: equality of users is decided solely by id — `__eq__` holds iff the
ids match, `__ne__` is its negation, `__hash__` is the id shifted right by
22 bits, and two users constructed from payloads with equal id compare equal
and hash identically whatever the other fields are. -/
theorem c3_equality_solely_by_id (st1 st2 : Nat) (p q : UserPayload) :
    (BaseUser.beq (BaseUser.ofPayload st1 p) (BaseUser.ofPayload st2 q) = true
      ↔ p.id = q.id) ∧
    BaseUser.bne (BaseUser.ofPayload st1 p) (BaseUser.ofPayload st2 q)
      = !(BaseUser.beq (BaseUser.ofPayload st1 p) (BaseUser.ofPayload st2 q)) ∧
    BaseUser.hash (BaseUser.ofPayload st1 p) = p.id >>> 22 ∧
    (p.id = q.id →
      BaseUser.beq (BaseUser.ofPayload st1 p) (BaseUser.ofPayload st2 q) = true ∧
      BaseUser.hash (BaseUser.ofPayload st1 p)
        = BaseUser.hash (BaseUser.ofPayload st2 q)) := by
  refine ⟨?_, rfl, rfl, fun h => ⟨?_, ?_⟩⟩
  · simp only [BaseUser.beq, BaseUser.ofPayload, beq_iff_eq]
    exact eq_comm
  · simp [BaseUser.beq, BaseUser.ofPayload, h]
  · simp [BaseUser.hash, BaseUser.ofPayload, h]

/-- C3 witness: two payloads sharing id 4194304 but differing in every other
field produce users that compare equal and hash identically. -/
theorem c3_equality_solely_by_id_witness :
    BaseUser.beq (BaseUser.ofPayload 0 c3pPayload) (BaseUser.ofPayload 1 c3qPayload)
      = true ∧
    BaseUser.hash (BaseUser.ofPayload 0 c3pPayload)
      = BaseUser.hash (BaseUser.ofPayload 1 c3qPayload) :=
  (c3_equality_solely_by_id 0 1 c3pPayload c3qPayload).2.2.2 rfl

/-- C4: evaluation of the `house` branches of `ClientUser.edit` on a bot
account.  A valid house issues `change_hypesquad_house` with the house's
value and the edit proceeds; a non-house value raises `ClientException` with
no house call; but `house=None` issues `leave_hypesquad_house` and then hits
the unconditional `change_hypesquad_house(value)` with the local `value`
never assigned, raising `UnboundLocalError` and aborting the edit — the
claim's no-uninitialized-variable guarantee fails on this branch. -/
theorem c4_house_none_hits_unbound_local :
    ClientUser.edit botClient { house := some (HouseField.house HypeSquadHouse.bravery) }
      = (.ok botClientArgs,
         [HttpCall.change_hypesquad_house 1, HttpCall.edit_profile botClientArgs]) ∧
    ClientUser.edit botClient { house := some HouseField.notAHouse }
      = (.error (PyErr.clientException "`house` parameter was not a HypeSquadHouse"), []) ∧
    ClientUser.edit botClient { house := some HouseField.pyNone }
      = (.error (PyErr.unboundLocalError "value"), [HttpCall.leave_hypesquad_house]) :=
  ⟨rfl, rfl, rfl⟩

/-- C5: the avatar value `ClientUser.edit` places in the transmitted args —
explicit bytes are sent base64-encoded and explicit `None` is sent as
`None`, but when the `avatar` key is absent the code reads `self.avatar`,
the `Asset`-valued property, and transmits that `Asset` object rather than
the raw stored hash (here the stored hash is `"aaa"` while the transmitted
value is the `Asset` keyed by it). -/
theorem c5_avatar_transmission :
    (ClientUser.edit botClient { avatar := some (some [1, 2, 3]) }).1
      = .ok { botClientArgs with avatar := AvatarArg.b64Data [1, 2, 3] } ∧
    (ClientUser.edit botClient { avatar := some none }).1
      = .ok { botClientArgs with avatar := AvatarArg.pyNone } ∧
    botClient._avatar = some "aaa" ∧
    (ClientUser.edit botClient {}).1 = .ok botClientArgs ∧
    botClientArgs.avatar = AvatarArg.assetValue (Asset._from_avatar 0 3 "aaa") :=
  ⟨rfl, rfl, rfl, rfl, rfl⟩

/-- C6: on a non-bot account, `edit` with no password raises
`ClientException` before any remote call — the HTTP trace is empty (assuming
the discriminator is a decimal numeral, as it always is on the wire). -/
theorem c6_password_required (self : ClientUser) (fields : EditFields)
    (hbot : self.bot = false) (hpw : fields.password = none)
    (hdisc : pyInt self.discriminator ≠ none) :
    ClientUser.edit self fields
      = (.error (PyErr.clientException "Password is required for non-bot accounts."), []) := by
  obtain ⟨a, ha⟩ := editAvatarStep_isOk self fields hdisc
  unfold ClientUser.edit
  rw [ha]
  simp [hbot, hpw]

/-- C6 witness: the concrete non-bot client with an empty keyword set. -/
theorem c6_password_required_witness :
    ClientUser.edit nonBotClient {}
      = (.error (PyErr.clientException "Password is required for non-bot accounts."), []) :=
  c6_password_required nonBotClient {} rfl rfl (by decide)

/-- C7: `create_group` with fewer than two recipients raises
`ClientException` before any remote call; with two or more it issues exactly
one `start_group` call whose recipient list is every recipient's id
stringified, in order. -/
theorem c7_create_group (self : ClientUser) (recipients : List User) :
    (recipients.length < 2 →
      ClientUser.create_group self recipients
        = (.error (PyErr.clientException
              "You must have two or more recipients to create a group."), [])) ∧
    (2 ≤ recipients.length →
      ClientUser.create_group self recipients
        = (.ok (recipients.map fun u => toString u.id),
           [HttpCall.start_group self.id (recipients.map fun u => toString u.id)])) := by
  constructor
  · intro h
    simp [ClientUser.create_group, h]
  · intro h
    simp [ClientUser.create_group, Nat.not_lt.mpr h]

/-- C7 witness: one recipient fails; two recipients issue the single
stringified `start_group` call. -/
theorem c7_create_group_witness :
    ClientUser.create_group nonBotClient [recipientA]
      = (.error (PyErr.clientException
            "You must have two or more recipients to create a group."), []) ∧
    ClientUser.create_group nonBotClient [recipientA, recipientB]
      = (.ok (([recipientA, recipientB]).map fun u => toString u.id),
         [HttpCall.start_group nonBotClient.id
            (([recipientA, recipientB]).map fun u => toString u.id)]) :=
  ⟨(c7_create_group nonBotClient [recipientA]).1 (by decide),
   (c7_create_group nonBotClient [recipientA, recipientB]).2 (by decide)⟩

/-- C8: `_update` is idempotent — applying the same payload twice yields
exactly the field state of applying it once, for both the `BaseUser` and the
`ClientUser` update routines (every tracked field is overwritten from the
payload; only the session reference and the relationship map carry over, and
they are identical after one or two applications). -/
theorem c8_update_idempotent (b : BaseUser) (p : UserPayload)
    (c : ClientUser) (q : ClientUserPayload) :
    BaseUser._update (BaseUser._update b p) p = BaseUser._update b p ∧
    ClientUser._update (ClientUser._update c q) q = ClientUser._update c q :=
  ⟨rfl, rfl⟩

/-- C9: `create_dm` is idempotent from the caller's view — whatever the
starting cache, once a first call has returned (registering the channel when
it was not cached), a second call returns the same channel, leaves the cache
unchanged and issues no HTTP call. -/
theorem c9_create_dm_idempotent (u : User) (st : ConnectionState) (r1 r2 : Nat) :
    (User.create_dm u (User.create_dm u st r1).2.1 r2).1
      = (User.create_dm u st r1).1 ∧
    (User.create_dm u (User.create_dm u st r1).2.1 r2).2.1
      = (User.create_dm u st r1).2.1 ∧
    (User.create_dm u (User.create_dm u st r1).2.1 r2).2.2 = [] := by
  rcases h : User.dm_channel u st with _ | ch
  · have h2 : User.dm_channel u
        { private_channels_by_user := (u.id, r1) :: st.private_channels_by_user }
        = some r1 := by
      simp [User.dm_channel, ConnectionState._get_private_channel_by_user, List.find?]
    simp [User.create_dm, h, ConnectionState.add_dm_channel, h2]
  · simp [User.create_dm, h]

/-- C10: the copy produced by `User._copy` always has its `_stored` slot set
to `False`, so destroying a copy never triggers the cache dereference in
`__del__`, whatever the original's `_stored` flag was. -/
theorem c10_copy_never_derefs (u : User) (n : Nat) :
    (User._copy u)._stored = some false ∧
    User.delCalls (User._copy u)._stored n = [] :=
  ⟨rfl, rfl⟩
